import Mathlib

/-!
A verification development for the future/promise primitive of
`src/mongo/util/future.h`.

The header `future.h` is in the sources; the implementation header
`future_impl.h` (the classes `future_details::SharedState`,
`future_details::FutureImpl` and `future_details::SharedStateHolder`) is not.
Definitions below that embed code visible in `future.h` cite the line they
come from; definitions standing in for the missing `future_impl.h` code are
marked `Modelled from the spec:` and follow the specification's wording for
that component.

The embedding is sequential: each operation is a pure function from the
relevant handle/shared-cell state to its updated state, fatal invariant
failures are `Except.error`, and a blocking wait that would suspend forever
is the `none` outcome.
-/

namespace MongoFuture

/-- The tagged error carrier: numeric code plus human-readable message
(`mongo::Status`). `ErrorCodes::OK` is code 0. -/
structure Status where
  code : Nat
  reason : String
deriving DecidableEq

/-- Embeds `ErrorCodes::OK`: the zero code, meaning success. -/
def ErrorCodes.OK : Nat := 0

/-- Modelled from the spec: the numeric value of `ErrorCodes::BrokenPromise`
is defined in `error_codes.yml`, which is not in the sources; the spec only
requires a distinguished non-OK kind. Any fixed nonzero code serves. -/
def ErrorCodes.BrokenPromise : Nat := 25

/-- Embeds `Status::isOK()`: the status carries the OK code. -/
def Status.isOK (s : Status) : Bool := s.code == ErrorCodes.OK

/-- The OK status. -/
def Status.OK : Status := ⟨ErrorCodes.OK, ""⟩

/-- The status installed by a broken promise:
`{ErrorCodes::BrokenPromise, "broken promise"}` (future.h:531, future.h:658). -/
def brokenPromiseStatus : Status := ⟨ErrorCodes.BrokenPromise, "broken promise"⟩

/-- The uniform value-or-error result (`StatusWith<T>` /
`StatusOrStatusWith<T>`): either a value of type `α` or an error status. -/
inductive StatusWith (α : Type) where
  | ok (v : α)
  | err (s : Status)
deriving DecidableEq

/-- The shared-state phase tag `future_details::SSBState`
(named at future.h:712): `kInit`, `kWaiting` (a continuation or blocked
waiter is registered), `kFinished`. -/
inductive SSBState where
  | kInit
  | kWaiting
  | kFinished
deriving DecidableEq

/-- Modelled from the spec: `future_details::SharedState<T>` lives in
`future_impl.h`, which is not in the sources. Per spec §3 it holds an atomic
phase tag and a write-once result slot holding either a value or an error.
The continuation slot and waiter list are not represented: no claim settled
here attaches a continuation to a deferred state, and waking a waiter does
not change the stored result. -/
structure SharedState (α : Type) where
  state : SSBState
  result : Option (StatusWith α)
deriving DecidableEq

/-- A fatal, unrecoverable programmer error: a failed `invariant(...)`
aborts the process. -/
inductive Fatal where
  | invariantFailure
deriving DecidableEq

/-- Modelled from the spec: `SharedState::complete` (spec §4.1) stores the
result and transitions the phase tag to Finished. Continuation invocation /
waiter wakeup, which spec §4.1 also assigns to completion, only transfers
the already-stored result and so is not part of the cell's state here. -/
def SharedState.complete (c : SharedState α) (r : StatusWith α) : SharedState α :=
  { c with state := SSBState.kFinished, result := some r }

/-- Embeds `SharedState::emplaceValue` as used at future.h:476: completes the cell
with a success value. -/
def SharedState.emplaceValue (c : SharedState α) (v : α) : SharedState α :=
  c.complete (StatusWith.ok v)

/-- Embeds `SharedState::setError` as used at future.h:483: completes the cell with
an error status. -/
def SharedState.setError (c : SharedState α) (s : Status) : SharedState α :=
  c.complete (StatusWith.err s)

/-- Embeds `SharedState::setFromStatusWith` as used at future.h:490: completes the
cell with a tagged value-or-error. -/
def SharedState.setFromStatusWith (c : SharedState α) (sw : StatusWith α) : SharedState α :=
  c.complete sw

/-- Modelled from the spec: reading the result slot guarded by the phase tag
(spec §4.1 `blockingWait` / §3 invariant 1 - the slot is meaningful exactly
once the tag is Finished). -/
def SharedState.loadResult (c : SharedState α) : Option (StatusWith α) :=
  if c.state = SSBState.kFinished then c.result else none

/-- The interruption/deadline token consulted only by blocking waits
(`Interruptible*`, future.h:167-212): either the never-firing default
`Interruptible::notInterruptible()` or a token that has fired with a given
error status. -/
inductive Interruptible where
  | notInterruptible
  | interrupted (s : Status)
deriving DecidableEq

/-- Modelled from the spec: `SharedState::blockingWait` (spec §4.1): if
Finished, return OK immediately; otherwise, if the interruption token has
fired, return its error without altering the cell; otherwise suspend
(outcome `none`). The returned cell is the cell as the wait leaves it. -/
def SharedState.blockingWait (c : SharedState α) (i : Interruptible) :
    Option Status × SharedState α :=
  if c.state = SSBState.kFinished then (some Status.OK, c)
  else
    match i with
    | Interruptible.interrupted s => (some s, c)
    | Interruptible.notInterruptible => (none, c)

/-!
## Promise (future.h:411-536)

A `Promise<T>` holds a `boost::intrusive_ptr<SharedState<T>>` which is
either null (default-constructed, moved-from, or already used to complete)
or owns the single completion right on one cell (future.h:535). Since the
promise is the only completing handle on its cell, the cell is carried in
the promise state here, and completing operations also return the final
cell contents - which is exactly what every Future/consumer aliasing the
same cell observes afterwards.
-/

/-- The state of a `Promise<T>` handle: `none` is the null state
(future.h:407-409), `some c` holds the completion right on cell `c`. -/
abbrev PromiseState (α : Type) := Option (SharedState α)

/-- Embeds `Promise::setImpl` (future.h:517-526): `invariant(_sharedState)` - fatal
on a null promise - then moves the shared-state pointer out of the promise
(leaving it null) and applies the completing action `doSet` to the cell. -/
def Promise.setImpl (p : PromiseState α) (doSet : SharedState α → SharedState α) :
    Except Fatal (PromiseState α × SharedState α) :=
  match p with
  | none => Except.error Fatal.invariantFailure
  | some c => Except.ok (none, doSet c)

/-- Embeds `Promise::emplaceValue` (future.h:473-478): completes with a value via
`setImpl`. -/
def Promise.emplaceValue (p : PromiseState α) (v : α) :
    Except Fatal (PromiseState α × SharedState α) :=
  Promise.setImpl p (fun c => c.emplaceValue v)

/-- Embeds `Promise::setError` (future.h:480-485): `invariant(!status.isOK())`,
then completes with the error via `setImpl`. -/
def Promise.setError (p : PromiseState α) (s : Status) :
    Except Fatal (PromiseState α × SharedState α) :=
  if s.isOK then Except.error Fatal.invariantFailure
  else Promise.setImpl p (fun c => c.setError s)

/-- Embeds `Promise::setFromStatusWith` (future.h:488-492): completes with a tagged
value-or-error via `setImpl`. -/
def Promise.setFromStatusWith (p : PromiseState α) (sw : StatusWith α) :
    Except Fatal (PromiseState α × SharedState α) :=
  Promise.setImpl p (fun c => c.setFromStatusWith sw)

/-- Embeds `Promise::breakPromiseIfNeeded` (future.h:529-533), the whole body of
the destructor (future.h:423-425): if the shared-state pointer is non-null,
set the `BrokenPromise` error into the cell; a null promise (which includes
every promise that has already completed, since `setImpl` nulls it) touches
no cell. Returns the final contents of the referenced cell, `none` when no
cell was referenced. -/
def Promise.breakPromiseIfNeeded (p : PromiseState α) : Option (SharedState α) :=
  match p with
  | none => none
  | some c => some (c.setError brokenPromiseStatus)

/-- Embeds `Promise::operator=(Promise&&)` (future.h:434-438): first
`breakPromiseIfNeeded()` on the overwritten promise, then take the source's
shared state; the source is left moved-from (null). Returns the target's new
state, the source's new state, and the final contents of the cell the target
previously referenced (`none` when the target was null). -/
def Promise.moveAssign (target source : PromiseState α) :
    PromiseState α × PromiseState α × Option (SharedState α) :=
  (source, none, Promise.breakPromiseIfNeeded target)

/-!
## Future (future.h:64-385)

A `Future<T>` wraps a `future_details::FutureImpl<T>`, which (as visible in
the `share()` implementation, future.h:768-775) is either an immediate
already-resolved result (`_immediate`, no SharedState allocation) or a
reference to a deferred SharedState cell (`_shared`).
-/

/-- Embeds `future_details::FutureImpl<T>`: either immediate (carries a ready
value-or-error directly, future.h:772) or deferred (holds a SharedState
reference, future.h:774). -/
inductive FutureImpl (α : Type) where
  | immediate (r : StatusWith α)
  | deferred (c : SharedState α)
deriving DecidableEq

/-- Embeds `Future<T>::makeReady(val)` (future.h:121-123) and the implicit value
constructor (future.h:103-105): an immediate future holding the value. -/
def FutureImpl.makeReady (v : α) : FutureImpl α :=
  FutureImpl.immediate (StatusWith.ok v)

/-- Embeds `Future<T>::makeReady(Status)` (future.h:125-127): an immediate future
holding the (non-OK) status as its error. -/
def FutureImpl.makeReadyStatus (s : Status) : FutureImpl α :=
  FutureImpl.immediate (StatusWith.err s)

/-- Embeds `Future::isReady` (future.h:158-160): immediate futures are ready;
deferred futures are ready once the cell's phase tag is Finished. -/
def FutureImpl.isReady : FutureImpl α → Bool
  | FutureImpl.immediate _ => true
  | FutureImpl.deferred c => c.state == SSBState.kFinished

/-- The outcome of a `get(interruptible)` call: return the value, throw an
error status, or suspend forever (`blocks` - the call never returns). -/
inductive GetOutcome (α : Type) where
  | value (v : α)
  | thrown (s : Status)
  | blocks
deriving DecidableEq

/-- Modelled from the spec: `FutureImpl::get` is in `future_impl.h`, not in
the sources. Per spec §4.3/§4.1: block until ready then return the value or
throw the error; with an already-fired interruption token and a pending
cell, throw the token's error immediately instead of blocking. -/
def FutureImpl.get (fu : FutureImpl α) (i : Interruptible) : GetOutcome α :=
  match fu with
  | FutureImpl.immediate (StatusWith.ok v) => GetOutcome.value v
  | FutureImpl.immediate (StatusWith.err s) => GetOutcome.thrown s
  | FutureImpl.deferred c =>
    match c.loadResult, i with
    | some (StatusWith.ok v), _ => GetOutcome.value v
    | some (StatusWith.err s), _ => GetOutcome.thrown s
    | none, Interruptible.interrupted s => GetOutcome.thrown s
    | none, Interruptible.notInterruptible => GetOutcome.blocks

/-- Modelled from the spec: `FutureImpl::getNoThrow` (spec §4.3): the tagged
result once ready; the interruption error if the token fired first; `none`
when the call suspends forever. -/
def FutureImpl.getNoThrow (fu : FutureImpl α) (i : Interruptible) :
    Option (StatusWith α) :=
  match fu with
  | FutureImpl.immediate r => some r
  | FutureImpl.deferred c =>
    match c.loadResult, i with
    | some r, _ => some r
    | none, Interruptible.interrupted s => some (StatusWith.err s)
    | none, Interruptible.notInterruptible => none

/-- Modelled from the spec: `FutureImpl::waitNoThrow` (spec §4.3/§4.1):
`Status::OK()` once ready; the interruption error if the token fired first;
`none` when the call suspends forever. The wait leaves the cell of a
deferred future exactly as `SharedState.blockingWait` leaves it. -/
def FutureImpl.waitNoThrow (fu : FutureImpl α) (i : Interruptible) : Option Status :=
  match fu with
  | FutureImpl.immediate _ => some Status.OK
  | FutureImpl.deferred c => (c.blockingWait i).1

/-!
## Continuations on a resolved Future

`then`/`onError`/`onErrorCategory` live in `FutureImpl` (`future_impl.h`,
not in the sources); `future.h` only forwards to them (future.h:253-302).
They are modelled from the spec on an already-resolved input result (the
settled claims concern already-resolved futures). Each combinator returns
the resolved result of the output future, paired with the number of times
the user callback was invoked. Callback outcomes are the explicit
value-or-error union (spec §9). -/

/-- Modelled from the spec: `then(func)` (spec §4.3): `func` runs only on
success, receiving the value; on input error, `func` is skipped and the
error passes through unchanged. -/
def FutureImpl.thenCont (r : StatusWith α) (f : α → StatusWith β) :
    StatusWith β × Nat :=
  match r with
  | StatusWith.ok v => (f v, 1)
  | StatusWith.err s => (StatusWith.err s, 0)

/-- Modelled from the spec: `onError(func)` (spec §4.3): `func` runs only
when the input is an error; otherwise the success value passes through
unchanged. -/
def FutureImpl.onError (r : StatusWith α) (f : Status → StatusWith α) :
    StatusWith α × Nat :=
  match r with
  | StatusWith.ok v => (StatusWith.ok v, 0)
  | StatusWith.err s => (f s, 1)

/-- Modelled from the spec: `onError<code>(func)` (spec §4.3, future.h:285-292):
`func` runs only on an error whose code matches the template parameter; a
success or a non-matching error passes through unchanged. -/
def FutureImpl.onErrorCode (code : Nat) (r : StatusWith α) (f : Status → StatusWith α) :
    StatusWith α × Nat :=
  match r with
  | StatusWith.ok v => (StatusWith.ok v, 0)
  | StatusWith.err s => if s.code = code then (f s, 1) else (StatusWith.err s, 0)

/-- Modelled from the spec: `onErrorCategory<category>(func)` (spec §4.3,
future.h:294-302): `func` runs only on an error belonging to the category;
membership of a code in an `ErrorCategory` is abstracted as the predicate
`inCategory`. A success or a non-matching error passes through unchanged. -/
def FutureImpl.onErrorCategory (inCategory : Status → Bool) (r : StatusWith α)
    (f : Status → StatusWith α) : StatusWith α × Nat :=
  match r with
  | StatusWith.ok v => (StatusWith.ok v, 0)
  | StatusWith.err s => if inCategory s then (f s, 1) else (StatusWith.err s, 0)

/-!
## SharedPromise / SharedSemiFuture (future.h:538-717)

A `SharedPromise<T>` is neither movable nor copyable (future.h:662-665) and
its `_sharedState` pointer is `const` and initialised to a fresh cell
(future.h:715-716), so it is never null. Every `SharedSemiFuture` returned
by `getFuture()` holds an `intrusive_ptr` to that same single cell
(future.h:671-673), which is why all derived futures observe the one
terminal result: they are all reads of one cell.
-/

/-- Embeds `SharedPromise<T>`: the single completion right on its one (never-null)
cell (future.h:715-716). -/
structure SharedPromise (α : Type) where
  sharedState : SharedState α
deriving DecidableEq

/-- Embeds `SharedSemiFuture<T>`: a shareable read handle; `_shared` aliases the
producing SharedPromise's cell (future.h:616-621). In this sequential
embedding the handle carries the aliased cell's contents. -/
structure SharedSemiFuture (α : Type) where
  shared : SharedState α
deriving DecidableEq

/-- Embeds `SharedPromise::haveCompleted` (future.h:707-713): the cell's phase tag
is `kFinished`. -/
def SharedPromise.haveCompleted (p : SharedPromise α) : Bool :=
  p.sharedState.state == SSBState.kFinished

/-- Embeds `SharedPromise::getFuture` (future.h:671-673): a `const` method; every
call returns a SharedSemiFuture on the promise's one shared cell, before or
after completion. -/
def SharedPromise.getFuture (p : SharedPromise α) : SharedSemiFuture α :=
  ⟨p.sharedState⟩

/-- Embeds `SharedPromise::emplaceValue` (future.h:686-690):
`invariant(!haveCompleted())`, then complete the cell with the value. -/
def SharedPromise.emplaceValue (p : SharedPromise α) (v : α) :
    Except Fatal (SharedPromise α) :=
  if p.haveCompleted then Except.error Fatal.invariantFailure
  else Except.ok ⟨p.sharedState.emplaceValue v⟩

/-- Embeds `SharedPromise::setError` (future.h:692-696): `invariant(!status.isOK())`,
then `invariant(!haveCompleted())`, then complete the cell with the error. -/
def SharedPromise.setError (p : SharedPromise α) (s : Status) :
    Except Fatal (SharedPromise α) :=
  if s.isOK then Except.error Fatal.invariantFailure
  else if p.haveCompleted then Except.error Fatal.invariantFailure
  else Except.ok ⟨p.sharedState.setError s⟩

/-- Embeds `SharedPromise::setFromStatusWith` (future.h:699-702):
`invariant(!haveCompleted())`, then complete the cell with the tagged
result. -/
def SharedPromise.setFromStatusWith (p : SharedPromise α) (sw : StatusWith α) :
    Except Fatal (SharedPromise α) :=
  if p.haveCompleted then Except.error Fatal.invariantFailure
  else Except.ok ⟨p.sharedState.setFromStatusWith sw⟩

/-- Embeds `~SharedPromise` (future.h:656-660): if `!haveCompleted()`, set the
`BrokenPromise` error into the cell; a completed promise's cell is left
untouched. Returns the final contents of the cell. -/
def SharedPromise.destruct (p : SharedPromise α) : SharedState α :=
  if p.haveCompleted then p.sharedState
  else p.sharedState.setError brokenPromiseStatus

/-- Embeds `SharedSemiFuture::getNoThrow` (future.h:604-607): same blocking
semantics as a deferred Future's `getNoThrow` on the aliased cell. -/
def SharedSemiFuture.getNoThrow (f : SharedSemiFuture α) (i : Interruptible) :
    Option (StatusWith α) :=
  FutureImpl.getNoThrow (FutureImpl.deferred f.shared) i

/-- Embeds `SharedSemiFuture::get` (future.h:599-602): same blocking semantics as a
deferred Future's `get` on the aliased cell. -/
def SharedSemiFuture.get (f : SharedSemiFuture α) (i : Interruptible) : GetOutcome α :=
  FutureImpl.get (FutureImpl.deferred f.shared) i

/-!
## The ref-qualifier surface of Future's consuming methods (future.h:141-362)

Which reference-qualified overloads `future.h` declares for each
result-extracting or chaining method of `Future<T>`. An `&&` (rvalue)
overload consumes the handle; `&` / `const&` overloads do not.
-/

/-- The set of reference-qualified overloads a method declares. -/
structure MethodRefQualifiers where
  rvalue : Bool
  lvalue : Bool
  constLvalue : Bool
deriving DecidableEq

/-- A method is defined only on an rvalue when it has the `&&` overload and
no lvalue or const-lvalue overload. -/
def MethodRefQualifiers.rvalueOnly (m : MethodRefQualifiers) : Bool :=
  m.rvalue && !m.lvalue && !m.constLvalue

/-- Embeds `Future::get`: `&&` at future.h:192, `&` at future.h:196-199,
`const&` at future.h:200-203. -/
def Future.getOverloads : MethodRefQualifiers := ⟨true, true, true⟩

/-- Embeds `Future::getNoThrow`: `&&` at future.h:204-208, `const&` at
future.h:209-212. -/
def Future.getNoThrowOverloads : MethodRefQualifiers := ⟨true, false, true⟩

/-- Embeds `Future::getAsync`: `&&` only (future.h:221-224). -/
def Future.getAsyncOverloads : MethodRefQualifiers := ⟨true, false, false⟩

/-- Embeds `Future::then`: `&&` only (future.h:253-256). -/
def Future.thenOverloads : MethodRefQualifiers := ⟨true, false, false⟩

/-- Embeds `Future::onCompletion`: `&&` only (future.h:265-268). -/
def Future.onCompletionOverloads : MethodRefQualifiers := ⟨true, false, false⟩

/-- Embeds `Future::onError` (both the plain and the `<code>` template overload):
`&&` only (future.h:280-292). -/
def Future.onErrorOverloads : MethodRefQualifiers := ⟨true, false, false⟩

/-- Embeds `Future::onErrorCategory`: `&&` only (future.h:298-302). -/
def Future.onErrorCategoryOverloads : MethodRefQualifiers := ⟨true, false, false⟩

/-- Embeds `Future::tap` / `tapError` / `tapAll`: `&&` only (future.h:322-351). -/
def Future.tapOverloads : MethodRefQualifiers := ⟨true, false, false⟩

/-- Embeds `Future::ignoreValue`: `&&` only (future.h:360-362). -/
def Future.ignoreValueOverloads : MethodRefQualifiers := ⟨true, false, false⟩

/-- Embeds `Future::share`: `&&` only (future.h:141-143). -/
def Future.shareOverloads : MethodRefQualifiers := ⟨true, false, false⟩

/-- Modelled from the spec: the detection of a consuming call on an
already-consumed (moved-from) Future happens inside `future_impl.h`, not in
the sources; spec §8 requires it to be "a detectable programmer error
(assertion/panic), not silent undefined behavior". A handle is live or
consumed; a consuming operation on a consumed handle is a fatal assertion. -/
inductive FutureHandle (α : Type) where
  | live (fu : FutureImpl α)
  | consumed
deriving DecidableEq

/-- Modelled from the spec: a consuming (rvalue) `get` on a handle: fatal
assertion on an already-consumed handle; otherwise performs the get and
leaves the handle consumed. -/
def FutureHandle.getRvalue : FutureHandle α → Interruptible →
    Except Fatal (GetOutcome α × FutureHandle α)
  | FutureHandle.consumed, _ => Except.error Fatal.invariantFailure
  | FutureHandle.live fu, i => Except.ok (fu.get i, FutureHandle.consumed)

/-!
## Concrete fixtures used by witnesses
-/

/-- A fresh, never-completed shared cell over `Nat`. -/
def pendingCell : SharedState Nat := ⟨SSBState.kInit, none⟩

/-- An arbitrary non-OK application error status. -/
def errorStatusA : Status := ⟨6, "host unreachable"⟩

/-- A shared cell already completed with the value 1. -/
def finishedCell : SharedState Nat := ⟨SSBState.kFinished, some (StatusWith.ok 1)⟩

/-!
## Claims
-/

/-- C1: the completion methods `emplaceValue`, `setError` and
`setFromStatusWith` complete a Promise exactly once: on a non-null Promise
each completes the cell and leaves the Promise null, and each of them on a
null (default-constructed, moved-from, or already-completed) Promise is a
fatal invariant failure rather than a second completion or a silent no-op. -/
theorem promise_completes_exactly_once {α : Type} (c : SharedState α) (v : α)
    (s : Status) (hs : s.isOK = false) (sw : StatusWith α) :
    (Promise.emplaceValue (some c) v = Except.ok (none, c.emplaceValue v)
      ∧ Promise.setError (some c) s = Except.ok (none, c.setError s)
      ∧ Promise.setFromStatusWith (some c) sw = Except.ok (none, c.setFromStatusWith sw))
    ∧ (Promise.emplaceValue (none : PromiseState α) v = Except.error Fatal.invariantFailure
      ∧ Promise.setError (none : PromiseState α) s = Except.error Fatal.invariantFailure
      ∧ Promise.setFromStatusWith (none : PromiseState α) sw
          = Except.error Fatal.invariantFailure) := by
  refine ⟨⟨rfl, ?_, rfl⟩, rfl, ?_, rfl⟩ <;>
    simp [Promise.setError, hs, Promise.setImpl]

/-- Witness for C1 at concrete inputs. -/
theorem promise_completes_exactly_once_witness :
    Status.isOK errorStatusA = false
    ∧ ((Promise.emplaceValue (some pendingCell) 7
          = Except.ok (none, pendingCell.emplaceValue 7)
        ∧ Promise.setError (some pendingCell) errorStatusA
          = Except.ok (none, pendingCell.setError errorStatusA)
        ∧ Promise.setFromStatusWith (some pendingCell) (StatusWith.ok 3)
          = Except.ok (none, pendingCell.setFromStatusWith (StatusWith.ok 3)))
      ∧ (Promise.emplaceValue (none : PromiseState Nat) 7
          = Except.error Fatal.invariantFailure
        ∧ Promise.setError (none : PromiseState Nat) errorStatusA
          = Except.error Fatal.invariantFailure
        ∧ Promise.setFromStatusWith (none : PromiseState Nat) (StatusWith.ok 3)
          = Except.error Fatal.invariantFailure)) :=
  ⟨rfl, promise_completes_exactly_once pendingCell 7 errorStatusA rfl (StatusWith.ok 3)⟩

/-- C2: destroying a non-null Promise, or a not-yet-completed SharedPromise,
completes the shared cell with the BrokenPromise error (code
`ErrorCodes::BrokenPromise`, message "broken promise"), after which the
associated future's `getNoThrow` returns exactly that error; a null Promise
(the state of every completed Promise) and a completed SharedPromise are
left untouched by destruction. -/
theorem destructor_breaks_uncompleted_promise {α : Type} (c : SharedState α)
    (q : SharedPromise α) (hq : q.haveCompleted = false)
    (q' : SharedPromise α) (hq' : q'.haveCompleted = true) :
    (Promise.breakPromiseIfNeeded (some c) = some (c.setError brokenPromiseStatus)
      ∧ ∀ i, FutureImpl.getNoThrow (FutureImpl.deferred (c.setError brokenPromiseStatus)) i
          = some (StatusWith.err brokenPromiseStatus))
    ∧ Promise.breakPromiseIfNeeded (none : PromiseState α) = none
    ∧ (SharedPromise.destruct q = q.sharedState.setError brokenPromiseStatus
      ∧ ∀ i, (SharedSemiFuture.mk (SharedPromise.destruct q)).getNoThrow i
          = some (StatusWith.err brokenPromiseStatus))
    ∧ SharedPromise.destruct q' = q'.sharedState := by
  refine ⟨⟨rfl, fun i => rfl⟩, rfl, ⟨?_, fun i => ?_⟩, ?_⟩
  · simp [SharedPromise.destruct, hq]
  · simp [SharedPromise.destruct, hq, SharedSemiFuture.getNoThrow, FutureImpl.getNoThrow,
      SharedState.setError, SharedState.complete, SharedState.loadResult]
  · simp [SharedPromise.destruct, hq']

/-- Witness for C2 at concrete inputs. -/
theorem destructor_breaks_uncompleted_promise_witness :
    SharedPromise.haveCompleted ⟨pendingCell⟩ = false
    ∧ SharedPromise.haveCompleted ⟨finishedCell⟩ = true
    ∧ ((Promise.breakPromiseIfNeeded (some pendingCell)
          = some (pendingCell.setError brokenPromiseStatus)
        ∧ ∀ i, FutureImpl.getNoThrow
            (FutureImpl.deferred (pendingCell.setError brokenPromiseStatus)) i
            = some (StatusWith.err brokenPromiseStatus))
      ∧ Promise.breakPromiseIfNeeded (none : PromiseState Nat) = none
      ∧ (SharedPromise.destruct ⟨pendingCell⟩
            = pendingCell.setError brokenPromiseStatus
        ∧ ∀ i, (SharedSemiFuture.mk (SharedPromise.destruct ⟨pendingCell⟩)).getNoThrow i
            = some (StatusWith.err brokenPromiseStatus))
      ∧ SharedPromise.destruct ⟨finishedCell⟩ = finishedCell) :=
  ⟨rfl, rfl, destructor_breaks_uncompleted_promise pendingCell ⟨pendingCell⟩ rfl ⟨finishedCell⟩ rfl⟩

/-- C3: `then(f)` on a Future resolved with an error never invokes `f`
(invocation count 0), and the resulting Future resolves to the original
error unchanged, for every callback `f`. -/
theorem then_skips_callback_on_error {α β : Type} (s : Status) (f : α → StatusWith β) :
    FutureImpl.thenCont (StatusWith.err s) f = (StatusWith.err s, 0) := rfl

/-- C4: on a Future resolved with a success value, `onError`,
`onError<code>` and `onErrorCategory<category>` never invoke the callback
and pass the value through unchanged; the code- and category-filtered
variants also pass a non-matching error through unchanged without invoking
the callback. -/
theorem onError_skips_callback_on_success {α : Type} (v : α) (f : Status → StatusWith α)
    (code : Nat) (inCategory : Status → Bool) (s : Status)
    (hcode : s.code ≠ code) (hcat : inCategory s = false) :
    FutureImpl.onError (StatusWith.ok v) f = (StatusWith.ok v, 0)
    ∧ FutureImpl.onErrorCode code (StatusWith.ok v) f = (StatusWith.ok v, 0)
    ∧ FutureImpl.onErrorCategory inCategory (StatusWith.ok v) f = (StatusWith.ok v, 0)
    ∧ FutureImpl.onErrorCode code (StatusWith.err s) f = (StatusWith.err s, 0)
    ∧ FutureImpl.onErrorCategory inCategory (StatusWith.err s) f = (StatusWith.err s, 0) := by
  refine ⟨rfl, rfl, rfl, ?_, ?_⟩
  · simp [FutureImpl.onErrorCode, hcode]
  · simp [FutureImpl.onErrorCategory, hcat]

/-- Witness for C4 at concrete inputs. -/
theorem onError_skips_callback_on_success_witness :
    errorStatusA.code ≠ 2
    ∧ (fun _ : Status => false) errorStatusA = false
    ∧ (FutureImpl.onError (StatusWith.ok 5) (fun _ => StatusWith.ok 0)
          = (StatusWith.ok 5, 0)
      ∧ FutureImpl.onErrorCode 2 (StatusWith.ok 5) (fun _ => StatusWith.ok 0)
          = (StatusWith.ok 5, 0)
      ∧ FutureImpl.onErrorCategory (fun _ => false) (StatusWith.ok 5)
          (fun _ => StatusWith.ok 0) = (StatusWith.ok 5, 0)
      ∧ FutureImpl.onErrorCode 2 (StatusWith.err errorStatusA) (fun _ => StatusWith.ok 0)
          = (StatusWith.err errorStatusA, 0)
      ∧ FutureImpl.onErrorCategory (fun _ => false) (StatusWith.err errorStatusA)
          (fun _ => StatusWith.ok 0) = (StatusWith.err errorStatusA, 0)) :=
  ⟨by decide, rfl,
    onError_skips_callback_on_success 5 (fun _ => StatusWith.ok 0) 2 (fun _ => false)
      errorStatusA (by decide) rfl⟩

/-- C5: every `getFuture()` call on a SharedPromise is a read returning a
handle on the promise's one shared cell (so any number of calls, before or
after completion, yield futures of the same cell), and once the promise is
completed with a value or error, `get`/`getNoThrow` on a derived
SharedSemiFuture return exactly that value or error, for any
interruptible. -/
theorem shared_promise_fanout_observes_result {α : Type} (p : SharedPromise α)
    (hp : p.haveCompleted = false) (v : α) (s : Status) (hs : s.isOK = false) :
    (∀ q : SharedPromise α, SharedPromise.getFuture q = ⟨q.sharedState⟩)
    ∧ (∃ p', SharedPromise.emplaceValue p v = Except.ok p'
        ∧ ∀ i, (SharedPromise.getFuture p').getNoThrow i = some (StatusWith.ok v)
            ∧ (SharedPromise.getFuture p').get i = GetOutcome.value v)
    ∧ (∃ p', SharedPromise.setError p s = Except.ok p'
        ∧ ∀ i, (SharedPromise.getFuture p').getNoThrow i = some (StatusWith.err s)) := by
  refine ⟨fun q => rfl,
    ⟨⟨p.sharedState.emplaceValue v⟩, ?_, fun i => ⟨?_, ?_⟩⟩,
    ⟨⟨p.sharedState.setError s⟩, ?_, fun i => ?_⟩⟩
  · simp [SharedPromise.emplaceValue, hp]
  · simp [SharedPromise.getFuture, SharedSemiFuture.getNoThrow, FutureImpl.getNoThrow,
      SharedState.loadResult, SharedState.emplaceValue, SharedState.complete]
  · simp [SharedPromise.getFuture, SharedSemiFuture.get, FutureImpl.get,
      SharedState.loadResult, SharedState.emplaceValue, SharedState.complete]
  · simp [SharedPromise.setError, hs, hp]
  · simp [SharedPromise.getFuture, SharedSemiFuture.getNoThrow, FutureImpl.getNoThrow,
      SharedState.loadResult, SharedState.setError, SharedState.complete]

/-- Witness for C5 at concrete inputs. -/
theorem shared_promise_fanout_observes_result_witness :
    SharedPromise.haveCompleted ⟨pendingCell⟩ = false
    ∧ Status.isOK errorStatusA = false
    ∧ ((∀ q : SharedPromise Nat, SharedPromise.getFuture q = ⟨q.sharedState⟩)
      ∧ (∃ p', SharedPromise.emplaceValue ⟨pendingCell⟩ 7 = Except.ok p'
          ∧ ∀ i, (SharedPromise.getFuture p').getNoThrow i = some (StatusWith.ok 7)
              ∧ (SharedPromise.getFuture p').get i = GetOutcome.value 7)
      ∧ (∃ p', SharedPromise.setError ⟨pendingCell⟩ errorStatusA = Except.ok p'
          ∧ ∀ i, (SharedPromise.getFuture p').getNoThrow i
              = some (StatusWith.err errorStatusA))) :=
  ⟨rfl, rfl, shared_promise_fanout_observes_result ⟨pendingCell⟩ rfl 7 errorStatusA rfl⟩

/-- C6: on a deferred Future whose cell is still pending, `waitNoThrow` and
`getNoThrow` with an already-fired interruption token return the token's
error immediately (never the blocking outcome), the wait leaves the shared
cell exactly as it was, and after the cell is later completed with a result
every wait/get observes that completion. -/
theorem interrupted_wait_leaves_state_pending {α : Type} (c : SharedState α)
    (hc : c.state ≠ SSBState.kFinished) (s : Status) (r : StatusWith α) :
    FutureImpl.waitNoThrow (FutureImpl.deferred c) (Interruptible.interrupted s) = some s
    ∧ FutureImpl.getNoThrow (FutureImpl.deferred c) (Interruptible.interrupted s)
        = some (StatusWith.err s)
    ∧ (SharedState.blockingWait c (Interruptible.interrupted s)).2 = c
    ∧ (∀ i, FutureImpl.waitNoThrow (FutureImpl.deferred (c.complete r)) i = some Status.OK)
    ∧ (∀ i, FutureImpl.getNoThrow (FutureImpl.deferred (c.complete r)) i = some r) := by
  refine ⟨?_, ?_, ?_, fun i => ?_, fun i => ?_⟩
  · simp [FutureImpl.waitNoThrow, SharedState.blockingWait, hc]
  · simp [FutureImpl.getNoThrow, SharedState.loadResult, hc]
  · simp [SharedState.blockingWait, hc]
  · simp [FutureImpl.waitNoThrow, SharedState.blockingWait, SharedState.complete]
  · simp [FutureImpl.getNoThrow, SharedState.loadResult, SharedState.complete]

/-- Witness for C6 at concrete inputs. -/
theorem interrupted_wait_leaves_state_pending_witness :
    pendingCell.state ≠ SSBState.kFinished
    ∧ (FutureImpl.waitNoThrow (FutureImpl.deferred pendingCell)
          (Interruptible.interrupted errorStatusA) = some errorStatusA
      ∧ FutureImpl.getNoThrow (FutureImpl.deferred pendingCell)
          (Interruptible.interrupted errorStatusA) = some (StatusWith.err errorStatusA)
      ∧ (SharedState.blockingWait pendingCell (Interruptible.interrupted errorStatusA)).2
          = pendingCell
      ∧ (∀ i, FutureImpl.waitNoThrow
            (FutureImpl.deferred (pendingCell.complete (StatusWith.ok 9))) i
            = some Status.OK)
      ∧ (∀ i, FutureImpl.getNoThrow
            (FutureImpl.deferred (pendingCell.complete (StatusWith.ok 9))) i
            = some (StatusWith.ok 9))) :=
  ⟨by decide,
    interrupted_wait_leaves_state_pending pendingCell (by decide) errorStatusA
      (StatusWith.ok 9)⟩

/-- C7 counterexample: `get` and `getNoThrow` are not defined only on
rvalues - future.h:196-203 declares `&` and `const&` overloads of `get`,
and future.h:209-212 a `const&` overload of `getNoThrow`, which do not
consume the Future and (per future.h:186) may be called multiple times. -/
theorem consuming_methods_not_rvalue_only :
    Future.getOverloads.rvalueOnly = false
    ∧ Future.getNoThrowOverloads.rvalueOnly = false
    ∧ Future.getOverloads.lvalue = true
    ∧ Future.getNoThrowOverloads.constLvalue = true := by decide

/-- C7 amended: every chaining operation, `getAsync`, and `share` are
defined only on rvalues and consume the Future; `get` and `getNoThrow` have
a consuming rvalue overload but also non-consuming lvalue/const-lvalue
overloads callable multiple times; and a consuming call on an
already-consumed (moved-from) Future is a fatal assertion, never a silent
no-op, while a consuming call on a live Future performs the operation and
leaves the handle consumed. -/
theorem consuming_methods_amended {α : Type} (i : Interruptible) (fu : FutureImpl α) :
    (Future.thenOverloads.rvalueOnly = true
      ∧ Future.onCompletionOverloads.rvalueOnly = true
      ∧ Future.onErrorOverloads.rvalueOnly = true
      ∧ Future.onErrorCategoryOverloads.rvalueOnly = true
      ∧ Future.tapOverloads.rvalueOnly = true
      ∧ Future.ignoreValueOverloads.rvalueOnly = true
      ∧ Future.shareOverloads.rvalueOnly = true
      ∧ Future.getAsyncOverloads.rvalueOnly = true)
    ∧ (Future.getOverloads.rvalue = true ∧ Future.getOverloads.lvalue = true
      ∧ Future.getNoThrowOverloads.rvalue = true
      ∧ Future.getNoThrowOverloads.constLvalue = true)
    ∧ FutureHandle.getRvalue (FutureHandle.consumed : FutureHandle α) i
        = Except.error Fatal.invariantFailure
    ∧ FutureHandle.getRvalue (FutureHandle.live fu) i
        = Except.ok (fu.get i, FutureHandle.consumed) :=
  ⟨⟨rfl, rfl, rfl, rfl, rfl, rfl, rfl, rfl⟩, ⟨rfl, rfl, rfl, rfl⟩, rfl, rfl⟩

/-- C8: a ready Future constructed from a value `v` (the value constructor
and `Future::makeReady(v)` both build the same immediate future) has
`isReady() = true`, and `get` returns `v` for every interruptible - in
particular it never blocks. -/
theorem makeReady_is_ready_and_gets_value {α : Type} (v : α) :
    (FutureImpl.makeReady v).isReady = true
    ∧ ∀ i, (FutureImpl.makeReady v).get i = GetOutcome.value v
        ∧ (FutureImpl.makeReady v).getNoThrow i = some (StatusWith.ok v) :=
  ⟨rfl, fun _ => ⟨rfl, rfl⟩⟩

/-- C9: move-assigning onto a non-null Promise breaks the overwritten
promise's cell with the BrokenPromise error - exactly what
`breakPromiseIfNeeded` (the destructor body) produces - before the target
takes the source's shared state and the source becomes null; move-assigning
onto a null Promise (the state of every completed Promise) touches no
cell. -/
theorem move_assign_breaks_overwritten_promise {α : Type} (c : SharedState α)
    (src : PromiseState α) :
    Promise.moveAssign (some c) src
        = (src, none, some (c.setError brokenPromiseStatus))
    ∧ Promise.moveAssign (some c) src
        = (src, none, Promise.breakPromiseIfNeeded (some c))
    ∧ Promise.moveAssign (none : PromiseState α) src = (src, none, none)
    ∧ (∀ i, FutureImpl.getNoThrow (FutureImpl.deferred (c.setError brokenPromiseStatus)) i
        = some (StatusWith.err brokenPromiseStatus)) :=
  ⟨rfl, rfl, rfl, fun _ => rfl⟩

/-- C10: `Promise::setError` and `SharedPromise::setError` require a non-OK
status: with an OK status each is a fatal invariant failure; and whenever
either succeeds, the status was non-OK and the cell's installed result is
exactly that genuine error. -/
theorem setError_requires_not_ok_status {α : Type} (p : PromiseState α)
    (q : SharedPromise α) (s : Status) (hs : s.isOK = true) :
    Promise.setError p s = Except.error Fatal.invariantFailure
    ∧ SharedPromise.setError q s = Except.error Fatal.invariantFailure
    ∧ (∀ s' res, Promise.setError p s' = Except.ok res
        → s'.isOK = false ∧ res.2.result = some (StatusWith.err s'))
    ∧ (∀ s' res, SharedPromise.setError q s' = Except.ok res
        → s'.isOK = false ∧ res.sharedState.result = some (StatusWith.err s')) := by
  refine ⟨by simp [Promise.setError, hs], by simp [SharedPromise.setError, hs],
    fun s' res h => ?_, fun s' res h => ?_⟩
  · by_cases hok : s'.isOK
    · simp [Promise.setError, hok] at h
    · match p with
      | none => simp [Promise.setError, hok, Promise.setImpl] at h
      | some c =>
        simp [Promise.setError, hok, Promise.setImpl] at h
        simp [← h, SharedState.setError, SharedState.complete, hok]
  · by_cases hok : s'.isOK
    · simp [SharedPromise.setError, hok] at h
    · by_cases hdone : q.haveCompleted
      · simp [SharedPromise.setError, hok, hdone] at h
      · simp [SharedPromise.setError, hok, hdone] at h
        simp [← h, SharedState.setError, SharedState.complete, hok]

/-- Witness for C10 at concrete inputs. -/
theorem setError_requires_not_ok_status_witness :
    Status.isOK Status.OK = true
    ∧ (Promise.setError (some pendingCell) Status.OK = Except.error Fatal.invariantFailure
      ∧ SharedPromise.setError ⟨pendingCell⟩ Status.OK = Except.error Fatal.invariantFailure
      ∧ (∀ s' res, Promise.setError (some pendingCell) s' = Except.ok res
          → s'.isOK = false ∧ res.2.result = some (StatusWith.err s'))
      ∧ (∀ s' res, SharedPromise.setError ⟨pendingCell⟩ s' = Except.ok res
          → s'.isOK = false
            ∧ res.sharedState.result = some (StatusWith.err s'))) :=
  ⟨rfl, setError_requires_not_ok_status (some pendingCell) ⟨pendingCell⟩ Status.OK rfl⟩

end MongoFuture
